import Mathlib

/-!
# Verification of the nexus-cli dispatch-and-pipeline core

Shallow embedding of the rate limiter (`src/core/rate_limiter.py`), the
provider router (`src/core/router.py`) and the pipeline orchestrator
(`src/core/orchestrator.py`), with theorems settling the specification's
testable properties.

Timestamps are modelled as integers (the source uses POSIX float seconds;
every embedded operation depends on them only through ordered ring
arithmetic), token weights as integers.  Python dict/deque state is
modelled as explicit state records passed through each operation.
-/

namespace Nexus

/-! ## Rate limiter (`src/core/rate_limiter.py`) -/

/-- One window entry: `(timestamp, token_count)` as appended to a deque. -/
structure Entry where
  time : ℤ
  weight : ℤ
deriving DecidableEq, Repr

/-- A history deque, oldest entry first. -/
abbrev History := List Entry

/-- The window duration: `RateLimiter.window_size = 60.0`. -/
def window_size : ℤ := 60

/-- Embeds `RateLimiter._cleanup_old_entries`: pop entries from the front while
`history[0][0] < current_time - window_size`. -/
def cleanup_old_entries (now : ℤ) (h : History) : History :=
  h.dropWhile (fun e => e.time < now - window_size)

/-- Sum of the weight components, as in `_count_tokens_in_window`. -/
def sum_weights (h : History) : ℤ :=
  (h.map Entry.weight).sum

/-- The `rpm`/`tpm` pair stored for one model under one provider in
`config/limits.yaml` (`model_limits.get("rpm", 0)` / `.get("tpm", 0)`). -/
structure ModelLimits where
  rpm : ℤ
  tpm : ℤ
deriving DecidableEq, Repr

/-- The loaded limits configuration: per-provider per-model entries plus
the `default_limits` fallback values. -/
structure LimitsConfig where
  provider_models : String → String → Option ModelLimits
  default_rpm : ℤ
  default_tpm : ℤ

/-- Embeds `RateLimiter._get_model_limits`: provider-specific model limits if
present, else the defaults. -/
def get_model_limits (cfg : LimitsConfig) (provider model_id : String) : ℤ × ℤ :=
  match cfg.provider_models provider model_id with
  | some l => (l.rpm, l.tpm)
  | none => (cfg.default_rpm, cfg.default_tpm)

/-- Mutable limiter state: `request_history` and `token_history`, each a
dict keyed by `model_id` alone (the provider name is NOT part of the key,
mirroring `self.request_history[model_id]` in the source). -/
structure RLState where
  request_history : String → History
  token_history : String → History

/-- The empty limiter state (`defaultdict(lambda: deque())`). -/
def RLState.empty : RLState :=
  { request_history := fun _ => [], token_history := fun _ => [] }

/-- Point-update of one model's history. -/
def set_hist (f : String → History) (m : String) (h : History) : String → History :=
  fun m' => if m' = m then h else f m'

/-- Result of `check_limits`: `(allowed, sleep_time)`. -/
structure CheckResult where
  allowed : Bool
  sleep_time : Option ℤ
deriving DecidableEq, Repr

/-- The TPM half of `RateLimiter.check_limits` (reached when the RPM check
passed or `rpm_limit ≤ 0`): clean the token window, deny when
`current_tokens + estimated_tokens > tpm_limit`. -/
def check_tpm (tpm : ℤ) (model_id : String) (estimated_tokens : ℤ) (now : ℤ)
    (st : RLState) : CheckResult × RLState :=
  if 0 < tpm then
    let tok_clean := cleanup_old_entries now (st.token_history model_id)
    let st2 : RLState := { st with token_history := set_hist st.token_history model_id tok_clean }
    if tpm < sum_weights tok_clean + estimated_tokens then
      let oldest := ((tok_clean.head?).map Entry.time).getD now
      (⟨false, some (max 0 (oldest + window_size - now))⟩, st2)
    else
      (⟨true, none⟩, st2)
  else
    (⟨true, none⟩, st)

/-- Embeds `RateLimiter.check_limits(provider, model_id, estimated_tokens)` at an
explicit current time `now`.  Returns the decision and the (cleaned) state.
The unreachable `head?` default in the RPM branch mirrors the fact that the
guard `rpm ≤ length` with `0 < rpm` forces a non-empty cleaned window. -/
def check_limits (cfg : LimitsConfig) (st : RLState) (provider model_id : String)
    (estimated_tokens : ℤ) (now : ℤ) : CheckResult × RLState :=
  let lims := get_model_limits cfg provider model_id
  if lims.1 ≤ 0 ∧ lims.2 ≤ 0 then
    (⟨true, none⟩, st)
  else if 0 < lims.1 then
    let req_clean := cleanup_old_entries now (st.request_history model_id)
    let st1 : RLState := { st with request_history := set_hist st.request_history model_id req_clean }
    if lims.1 ≤ (req_clean.length : ℤ) then
      let oldest := ((req_clean.head?).map Entry.time).getD now
      (⟨false, some (max 0 (oldest + window_size - now))⟩, st1)
    else
      check_tpm lims.2 model_id estimated_tokens now st1
  else
    check_tpm lims.2 model_id estimated_tokens now st

/-- Embeds `RateLimiter.record_request`: append `(now, 1)` to the request window
and `(now, token_count)` to the token window of `model_id` (the provider
argument is unused for keying), then clean both windows (the source cleans
them while computing the usage it logs). -/
def record_request (st : RLState) (provider model_id : String)
    (token_count : ℤ) (now : ℤ) : RLState :=
  let _ := provider
  let req := st.request_history model_id ++ [⟨now, 1⟩]
  let tok := st.token_history model_id ++ [⟨now, token_count⟩]
  { request_history := set_hist st.request_history model_id (cleanup_old_entries now req),
    token_history := set_hist st.token_history model_id (cleanup_old_entries now tok) }

/-- Snapshot returned by `RateLimiter.get_current_usage`. -/
structure Usage where
  current_requests : ℕ
  rpm_limit : ℤ
  current_tokens : ℤ
  tpm_limit : ℤ
deriving DecidableEq, Repr

/-- Embeds `RateLimiter.get_current_usage` (counts over the live window). -/
def get_current_usage (cfg : LimitsConfig) (st : RLState)
    (provider model_id : String) (now : ℤ) : Usage :=
  let lims := get_model_limits cfg provider model_id
  { current_requests := (cleanup_old_entries now (st.request_history model_id)).length
    rpm_limit := lims.1
    current_tokens := sum_weights (cleanup_old_entries now (st.token_history model_id))
    tpm_limit := lims.2 }

/-! ## Provider router (`src/core/router.py`) -/

/-- Embeds Python's `str.lower()` as a per-character case fold (the values
compared in the source are plain ASCII flags). -/
def py_lower (s : String) : String :=
  String.mk (s.data.map Char.toLower)

/-- Embeds `os.getenv("USE_PAID_MODELS", "true").lower() == "true"`; the
environment variable is modelled as `Option String` (`none` = unset). -/
def use_paid_models (env : Option String) : Bool :=
  py_lower (env.getD "true") == "true"

/-- One entry of the legacy `models` config consulted by
`_should_skip_paid_provider` (`model_config.get("is_paid", False)`). -/
structure ModelCfg where
  is_paid : Bool
deriving DecidableEq, Repr

/-- One entry of the `provider_routes` config list
(`route.get("id")`, `route.get("provider")`, `route.get("is_paid", False)`). -/
structure RouteEntry where
  id : String
  provider : Option String
  is_paid : Bool
deriving DecidableEq, Repr

/-- The parts of `config_manager.config` read by the router. -/
structure RouterConfig where
  models : String → Option ModelCfg
  provider_routes : List RouteEntry

/-- Embeds `ProviderRouter._should_skip_paid_provider`: never skip when paid
models are enabled; otherwise skip when the legacy models config flags
`model_id` paid, or some provider route with this id and provider is
flagged paid. -/
def should_skip_paid_provider (env : Option String) (cfg : RouterConfig)
    (provider_name model_id : String) : Bool :=
  if use_paid_models env then false
  else if (cfg.models model_id).elim false ModelCfg.is_paid then true
  else cfg.provider_routes.any fun r =>
    r.id == model_id && r.provider == some provider_name && r.is_paid

/-- A provider adapter: `is_available()` and `complete(prompt)`, with a
raised exception modelled as `none` (the router catches it and moves on). -/
structure Provider where
  name : String
  is_available : Bool
  complete_fn : String → Option String

/-- Embeds `len(s.split())`: whitespace word count. -/
def word_count (s : String) : ℕ :=
  ((s.split Char.isWhitespace).filter (fun w => w ≠ "")).length

/-- Embeds `int(len(prompt.split()) + len(result.split()) * 1.3)`: both word
counts are non-negative, so truncation equals flooring and the value is
`wc(prompt) + (13 * wc(result)) / 10` exactly. -/
def estimate_tokens (prompt result : String) : ℤ :=
  (word_count prompt : ℤ) + 13 * (word_count result : ℤ) / 10

/-- A role's route: `role_config.model` and `role_config.providers`. -/
structure RoleConfig where
  model : String
  providers : List String

/-- Outcome of one `ProviderRouter.complete` call: the returned value, the
names of the providers whose `complete` was actually invoked (in order), and
the rate-limiter state and clock afterwards.  Waiting out a `retry_after`
advances the clock; the provider call itself is modelled as instantaneous. -/
structure RouterRun where
  result : Option String
  called : List String
  st : RLState
  now : ℤ

/-- The admission step of the provider loop: `check_limits`; when denied
with a positive `sleep_time`, wait it out (advancing the clock) and re-check
once.  `Sum.inl` = proceed to the provider call with the given state and
clock; `Sum.inr` = move to the next provider. -/
def rate_gate (lcfg : LimitsConfig) (pname model_name : String)
    (st : RLState) (now : ℤ) : (RLState × ℤ) ⊕ (RLState × ℤ) :=
  let c1 := check_limits lcfg st pname model_name 1000 now
  if c1.1.allowed then Sum.inl (c1.2, now)
  else
    match c1.1.sleep_time with
    | some s =>
      if 0 < s then
        let c2 := check_limits lcfg c1.2 pname model_name 1000 (now + s)
        if c2.1.allowed then Sum.inl (c2.2, now + s)
        else Sum.inr (c2.2, now + s)
      else Sum.inr (c1.2, now)
    | none => Sum.inr (c1.2, now)

/-- The provider loop of `ProviderRouter.complete` (role-based routing):
skip paid-disabled routes, skip unknown providers, skip unavailable ones,
run the `rate_gate` admission step, invoke the first admitted provider,
record usage on success and return immediately; on a provider error
continue down the chain; return `none` when the chain is exhausted. -/
def complete_loop (env : Option String) (rcfg : RouterConfig) (lcfg : LimitsConfig)
    (factory : String → Option Provider) (model_name prompt : String) :
    List String → RLState → ℤ → RouterRun
  | [], st, now => ⟨none, [], st, now⟩
  | pname :: rest, st, now =>
    if should_skip_paid_provider env rcfg pname model_name then
      complete_loop env rcfg lcfg factory model_name prompt rest st now
    else
      match factory pname with
      | none => complete_loop env rcfg lcfg factory model_name prompt rest st now
      | some prov =>
        if prov.is_available = false then
          complete_loop env rcfg lcfg factory model_name prompt rest st now
        else
          match rate_gate lcfg pname model_name st now with
          | Sum.inl (st', now') =>
            match prov.complete_fn prompt with
            | some text =>
              ⟨some text, [pname],
               record_request st' pname model_name (estimate_tokens prompt text) now', now'⟩
            | none =>
              let r := complete_loop env rcfg lcfg factory model_name prompt rest st' now'
              ⟨r.result, pname :: r.called, r.st, r.now⟩
          | Sum.inr (st', now') =>
            complete_loop env rcfg lcfg factory model_name prompt rest st' now'

/-- Embeds `ProviderRouter.complete(role, prompt)` for role-based routing: resolve
the role's route (`none` when the role is unconfigured, in which case the
call returns `None`) and walk the provider chain. -/
def router_complete (env : Option String) (rcfg : RouterConfig) (lcfg : LimitsConfig)
    (factory : String → Option Provider) (role_config : Option RoleConfig)
    (prompt : String) (st : RLState) (now : ℤ) : RouterRun :=
  match role_config with
  | none => ⟨none, [], st, now⟩
  | some rc => complete_loop env rcfg lcfg factory rc.model prompt rc.providers st now

/-! ## Pipeline orchestrator (`src/core/orchestrator.py`) -/

/-- The `TaskStatus` enumeration (`src/core/task.py`). -/
inductive TaskStatus where
  | inbox | backlog | sprint | done
deriving DecidableEq, Repr

/-- The string value of a status, `status.value`. -/
def TaskStatus.value : TaskStatus → String
  | .inbox => "inbox"
  | .backlog => "backlog"
  | .sprint => "sprint"
  | .done => "done"

/-- An activity log entry (`ActivityEntry` in `src/core/task.py`). -/
structure ActivityEntry where
  timestamp : ℤ
  action : String
  agent : String
  details : Option String
deriving DecidableEq, Repr

/-- The fields of `Task` the orchestrator's stage pipeline reads or writes
(id, title, description, status, activity); the remaining fields (priority,
tags, timestamps, ...) are never consulted by the embedded operations. -/
structure Task where
  id : String
  title : String
  description : String
  status : TaskStatus
  activity : List ActivityEntry
deriving DecidableEq, Repr

/-- Embeds `Task.add_activity`: append one entry. -/
def Task.add_activity (t : Task) (action agent : String) (details : Option String)
    (now : ℤ) : Task :=
  { t with activity := t.activity ++ [⟨now, action, agent, details⟩] }

/-- The role prompt built by `Orchestrator.route_to_agent`. -/
def task_prompt (t : Task) (role instruction : String) : String :=
  "\nTask: " ++ t.title ++
  "\nDescription: " ++ t.description ++
  "\nCurrent Status: " ++ t.status.value ++
  "\n\nInstruction: " ++ instruction ++
  "\n\nPlease process this task according to your role as " ++ role ++ ".\n"

/-- Embeds `result[:100] + "..." if len(result) > 100 else result`. -/
def truncate_result (r : String) : String :=
  if 100 < r.length then r.take 100 ++ "..." else r

/-- Outcome of one `route_to_agent` call: the returned value, the
in-memory task afterwards, and whether `task_queue.update_task` was
called (i.e. whether the task record was persisted). -/
structure StageResult where
  result : Option String
  task : Task
  wrote : Bool

/-- Embeds `Orchestrator.route_to_agent`, with the Router abstracted as a function
from (role, prompt) to its returned value.  A falsy result (`None` or the
empty string) appends nothing, persists nothing and returns `None`; a
truthy result appends the `processed by {role}` activity entry, keeps the
task out of inbox, and persists. -/
def route_to_agent (router : String → String → Option String)
    (role : String) (t : Task) (instruction : String) (now : ℤ) : StageResult :=
  let prompt := task_prompt t role instruction
  match router role prompt with
  | some r =>
    if r = "" then ⟨none, t, false⟩
    else
      let t1 := t.add_activity ("processed by " ++ role) role (some (truncate_result r)) now
      let t2 := if t1.status = TaskStatus.inbox then { t1 with status := TaskStatus.backlog } else t1
      ⟨some r, t2, true⟩
  | none => ⟨none, t, false⟩

/-- Embeds Python's `str.startswith` as a character-list prefix test. -/
def py_startswith (pre s : String) : Bool :=
  pre.data.isPrefixOf s.data

/-- The stage-skip test in `process_task_promotion`:
`any(a.agent == role and a.action.startswith("processed by") for a in task.activity)`. -/
def stage_done (t : Task) (role : String) : Bool :=
  t.activity.any fun a => a.agent == role && py_startswith "processed by" a.action

/-- Outcome of one pipeline pass: the in-memory task afterwards, the roles
for which the Router was invoked (in order), and the task snapshots passed
to `update_task` (the persisted writes, in order). -/
structure PipelineRun where
  task : Task
  invoked : List String
  writes : List Task

/-- The stage loop of `Orchestrator.process_task_promotion`: for each
configured (role, instruction) in order, skip the role when `stage_done`,
otherwise call `route_to_agent`; the loop always proceeds to the next
stage, whatever `route_to_agent` returned. -/
def run_pipeline (router : String → String → Option String) (now : ℤ) :
    List (String × String) → Task → PipelineRun
  | [], t => ⟨t, [], []⟩
  | (role, instruction) :: rest, t =>
    if stage_done t role then
      run_pipeline router now rest t
    else
      let s := route_to_agent router role t instruction now
      let r := run_pipeline router now rest s.task
      ⟨r.task, role :: r.invoked, (if s.wrote then [s.task] else []) ++ r.writes⟩

/-- Embeds `roles_env.split(",")` with `strip()` and empty entries dropped. -/
def parse_roles (s : String) : List String :=
  ((s.splitOn ",").map String.trim).filter (fun r => r ≠ "")

/-- The per-role default instructions of `process_task_promotion`. -/
def default_instructions (role : String) : String :=
  if role = "communications" then
    "Review the idea and create/normalize the task card, updating the roadmap if needed."
  else if role = "project_manager" then
    "Triage and scope this task. Add or refine acceptance criteria and move it through planning."
  else if role = "senior_dev" then
    "Assess complexity, outline the approach, and create any necessary subtasks."
  else if role = "junior_dev" then
    "Implement the next actionable step or utility according to the plan."
  else if role = "release_qa" then
    "Add validation steps and ensure release notes are updated if changes are user-facing."
  else
    "Proceed with your responsibilities for this task."

/-- Embeds `Orchestrator.process_task_promotion`: only tasks still in inbox are
promoted and run through the stage pipeline, with the stage list derived
from the `ORCHESTRATOR_ROLES` override or its default.  (The source routine
also contains a stray duplicate of the hard-coded stage list; the
env-derived list immediately above it is the operative definition.) -/
def process_task_promotion (router : String → String → Option String)
    (roles_env : Option String) (t : Task) (now : ℤ) : PipelineRun :=
  if t.status = TaskStatus.inbox then
    let roles := parse_roles
      (roles_env.getD "communications,project_manager,senior_dev,junior_dev,release_qa")
    run_pipeline router now (roles.map fun r => (r, default_instructions r)) t
  else
    ⟨t, [], []⟩

/-! ## Concrete fixtures used by witnesses and counterexamples -/

/-- A limits file: `("p1","m1")` unmetered, `("p2","m1")` request limit 1,
`("p3","m1")` request limit 2, `("p4","m1")` request limit 10 with token
limit 100; the stock defaults elsewhere. -/
def limits_fixture : LimitsConfig where
  provider_models := fun p m =>
    if p = "p1" ∧ m = "m1" then some ⟨0, 0⟩
    else if p = "p2" ∧ m = "m1" then some ⟨1, 0⟩
    else if p = "p3" ∧ m = "m1" then some ⟨2, 0⟩
    else if p = "p4" ∧ m = "m1" then some ⟨10, 100⟩
    else none
  default_rpm := 60
  default_tpm := 10000

/-- A limiter state with two live requests recorded for `"m1"`. -/
def st_two_requests : RLState where
  request_history := fun m => if m = "m1" then [⟨10, 1⟩, ⟨20, 1⟩] else []
  token_history := fun _ => []

/-- A limiter state with one request and 80 tokens recorded for `"m1"`. -/
def st_tokens : RLState where
  request_history := fun m => if m = "m1" then [⟨5, 1⟩] else []
  token_history := fun m => if m = "m1" then [⟨5, 80⟩] else []

/-- An unavailable provider. -/
def provider_pa : Provider := ⟨"pa", false, fun _ => some "unreachable"⟩

/-- An available provider that always answers `"ok"`. -/
def provider_pb : Provider := ⟨"pb", true, fun _ => some "ok"⟩

/-- Another unavailable provider. -/
def provider_pc : Provider := ⟨"pc", false, fun _ => some "unreachable"⟩

/-- An available provider whose backend call always raises. -/
def provider_pd : Provider := ⟨"pd", true, fun _ => none⟩

/-- The provider factory registering the fixture providers. -/
def provider_factory : String → Option Provider := fun n =>
  if n = "pa" then some provider_pa
  else if n = "pb" then some provider_pb
  else if n = "pc" then some provider_pc
  else if n = "pd" then some provider_pd
  else none

/-- A router config with no paid flags at all. -/
def free_cfg : RouterConfig := ⟨fun _ => none, []⟩

/-- A provider route flagged paid. -/
def paid_route : RouteEntry := ⟨"model1", some "prov1", true⟩

/-- A router config whose only route is the paid one. -/
def paid_cfg : RouterConfig := ⟨fun _ => none, [paid_route]⟩

/-- A Router stub that always succeeds with `"ok"`. -/
def router_ok : String → String → Option String := fun _ _ => some "ok"

/-- A Router stub that fails for role `"r1"` and succeeds otherwise. -/
def router_fail_r1 : String → String → Option String := fun role _ =>
  if role = "r1" then none else some "ok"

/-- A task whose log holds an entry with action `"processed by communications"`
but a different agent. -/
def task_foreign_entry : Task where
  id := "t1"
  title := "T"
  description := "D"
  status := TaskStatus.backlog
  activity := [⟨0, "processed by communications", "someone_else", none⟩]

/-- A task already stage-complete for `"communications"`. -/
def task_done_comms : Task where
  id := "t2"
  title := "T"
  description := "D"
  status := TaskStatus.backlog
  activity := [⟨0, "processed by communications", "communications", none⟩]

/-- A task with an empty activity log. -/
def task_fresh : Task where
  id := "t3"
  title := "T"
  description := "D"
  status := TaskStatus.backlog
  activity := []

end Nexus

namespace Nexus

/-! ## Shared helper lemmas -/

/-- Dropping from a concatenation whose first part satisfies the predicate
throughout drops the whole first part. -/
theorem dropWhile_append_of_all {α : Type} (p : α → Bool) :
    ∀ l1 l2 : List α, (∀ x ∈ l1, p x = true) →
      List.dropWhile p (l1 ++ l2) = List.dropWhile p l2
  | [], _, _ => rfl
  | a :: l1, l2, h => by
    have ha : p a = true := h a (List.mem_cons_self a l1)
    simp only [List.cons_append, List.dropWhile_cons, ha, if_true]
    exact dropWhile_append_of_all p l1 l2 fun x hx => h x (List.mem_cons_of_mem a hx)

/-- The TPM half allows the request when the token limit is unconfigured or
the live weights plus the estimate fit under it. -/
theorem check_tpm_allowed (tpm est now : ℤ) (m : String) (st : RLState)
    (h : tpm ≤ 0 ∨ sum_weights (cleanup_old_entries now (st.token_history m)) + est ≤ tpm) :
    (check_tpm tpm m est now st).1 = ⟨true, none⟩ := by
  rcases h with h | h
  · simp only [check_tpm]
    rw [if_neg (by omega)]
  · by_cases h0 : 0 < tpm
    · simp only [check_tpm, if_pos h0]
      rw [if_neg (by omega)]
    · simp only [check_tpm]
      rw [if_neg h0]

/-- Activity entries survive `route_to_agent`: the log is append-only and
the status rewrite touches no entry. -/
theorem route_to_agent_preserves_activity
    (router : String → String → Option String) (role : String) (t : Task)
    (instruction : String) (now : ℤ) (a : ActivityEntry) (ha : a ∈ t.activity) :
    a ∈ (route_to_agent router role t instruction now).task.activity := by
  rcases hres : router role (task_prompt t role instruction) with _ | r
  · simp only [route_to_agent, hres]
    exact ha
  · by_cases hr : r = ""
    · simp only [route_to_agent, hres]
      rw [if_pos hr]
      exact ha
    · simp only [route_to_agent, hres]
      rw [if_neg hr]
      split
      · exact List.mem_append_left _ ha
      · exact List.mem_append_left _ ha

/-- An entry with the right agent and a `"processed by"` action makes the
stage-skip test fire. -/
theorem stage_done_of_entry (t : Task) (R : String) (a : ActivityEntry)
    (ha : a ∈ t.activity) (hagent : a.agent = R)
    (hact : py_startswith "processed by" a.action = true) :
    stage_done t R = true :=
  List.any_eq_true.mpr ⟨a, ha, by simp [hagent, hact]⟩

/-- A role that is stage-complete at entry to the loop is never handed to
the Router, whatever the later stages do to the task. -/
theorem run_pipeline_not_invoked (router : String → String → Option String)
    (now : ℤ) (R : String) :
    ∀ pipeline (t : Task),
      (∃ a ∈ t.activity, a.agent = R ∧ py_startswith "processed by" a.action = true) →
      R ∉ (run_pipeline router now pipeline t).invoked := by
  intro pipeline
  induction pipeline with
  | nil =>
    intro t _
    simp [run_pipeline]
  | cons stage rest ih =>
    intro t h
    obtain ⟨a, ha, hag, hact⟩ := h
    obtain ⟨role, instruction⟩ := stage
    by_cases hdone : stage_done t role = true
    · simp only [run_pipeline]
      rw [if_pos hdone]
      exact ih t ⟨a, ha, hag, hact⟩
    · have hne : role ≠ R := by
        intro he
        exact hdone (by rw [he]; exact stage_done_of_entry t R a ha hag hact)
      simp only [run_pipeline]
      rw [if_neg hdone]
      intro hmem
      rcases List.mem_cons.mp hmem with h1 | h1
      · exact hne h1.symm
      · exact ih _ ⟨a, route_to_agent_preserves_activity router role t instruction now a ha,
          hag, hact⟩ h1

/-- The invoked roles always form an ordered sublist of the configured
stage list. -/
theorem run_pipeline_invoked_sublist (router : String → String → Option String)
    (now : ℤ) :
    ∀ pipeline (t : Task),
      List.Sublist (run_pipeline router now pipeline t).invoked (pipeline.map Prod.fst) := by
  intro pipeline
  induction pipeline with
  | nil =>
    intro t
    simp [run_pipeline]
  | cons stage rest ih =>
    intro t
    obtain ⟨role, instruction⟩ := stage
    by_cases hdone : stage_done t role = true
    · simp only [run_pipeline, List.map_cons]
      rw [if_pos hdone]
      exact (ih t).cons role
    · simp only [run_pipeline, List.map_cons]
      rw [if_neg hdone]
      exact (ih _).cons₂ role

/-! ## Claims -/

/-- C6: for every (provider, model) whose configured request limit and unit
limit are both zero, `check_limits` returns allowed with no retry-after,
regardless of any prior recorded usage. -/
theorem check_limits_unmetered (cfg : LimitsConfig) (st : RLState)
    (p m : String) (est now : ℤ)
    (h : get_model_limits cfg p m = (0, 0)) :
    (check_limits cfg st p m est now).1 = ⟨true, none⟩ := by
  simp [check_limits, h]

/-- Witness for C6: the unmetered route `("p1","m1")` is allowed even with
recorded usage present. -/
theorem check_limits_unmetered_witness :
    get_model_limits limits_fixture "p1" "m1" = (0, 0)
    ∧ (check_limits limits_fixture st_two_requests "p1" "m1" 1000 30).1 = ⟨true, none⟩ :=
  ⟨by decide, check_limits_unmetered limits_fixture st_two_requests "p1" "m1" 1000 30 (by decide)⟩

/-- C1: with a positive request limit `R` for (p,m) and exactly `R` live
usages in the current window, `check_limits` denies with
`retry_after = max(0, oldest + W - now) > 0`; at any time strictly past
`firstEntryTime + W` (time having advanced, and the token axis not
denying) the same call is allowed. -/
theorem check_limits_request_window
    (cfg : LimitsConfig) (st : RLState) (p m : String) (est now now' R T : ℤ)
    (e : Entry) (live : List Entry)
    (h1 : (get_model_limits cfg p m).1 = R)
    (h2 : (get_model_limits cfg p m).2 = T)
    (hR : 0 < R)
    (hclean : cleanup_old_entries now (st.request_history m) = e :: live)
    (hcount : ((e :: live).length : ℤ) = R)
    (hwin : now < e.time + window_size)
    (hadv : now ≤ now')
    (hpast : e.time + window_size < now')
    (htok : T ≤ 0 ∨ sum_weights (cleanup_old_entries now' (st.token_history m)) + est ≤ T) :
    (check_limits cfg st p m est now).1 =
        ⟨false, some (max 0 (e.time + window_size - now))⟩
    ∧ 0 < max 0 (e.time + window_size - now)
    ∧ (check_limits cfg st p m est now').1 = ⟨true, none⟩ := by
  refine ⟨?_, ?_, ?_⟩
  · simp only [check_limits, h1, h2, hclean]
    rw [if_neg (by omega), if_pos hR, if_pos (by omega)]
    simp
  · exact lt_max_of_lt_right (by omega)
  · have hclean' : List.dropWhile (fun x : Entry => decide (x.time < now - window_size))
        (st.request_history m) = e :: live := hclean
    have hsplit := List.takeWhile_append_dropWhile
      (p := fun x : Entry => decide (x.time < now - window_size)) (l := st.request_history m)
    have hdrop : cleanup_old_entries now' (st.request_history m) =
        List.dropWhile (fun x : Entry => decide (x.time < now' - window_size)) live := by
      rw [cleanup_old_entries]
      conv_lhs => rw [← hsplit, hclean']
      rw [dropWhile_append_of_all _ _ _ ?side]
      case side =>
        intro x hx
        have hpx := List.mem_takeWhile_imp hx
        have hx' : x.time < now - window_size := of_decide_eq_true hpx
        exact decide_eq_true (by omega)
      rw [List.dropWhile_cons, if_pos (decide_eq_true (by omega : e.time < now' - window_size))]
    have hlen : ((cleanup_old_entries now' (st.request_history m)).length : ℤ) < R := by
      rw [hdrop]
      have h3 := (List.dropWhile_sublist
        (p := fun x : Entry => decide (x.time < now' - window_size)) (l := live)).length_le
      simp only [List.length_cons] at hcount
      omega
    simp only [check_limits, h1, h2]
    rw [if_neg (by omega), if_pos hR, if_neg (by omega)]
    exact check_tpm_allowed T est now' m _ htok

/-- Witness for C1: with request limit 2 and two live requests at times 10
and 20, a check at time 30 is denied with retry-after 40, and a check at
time 71 (past 10 + 60) is allowed. -/
theorem check_limits_request_window_witness :
    (check_limits limits_fixture st_two_requests "p3" "m1" 1000 30).1 = ⟨false, some 40⟩
    ∧ (check_limits limits_fixture st_two_requests "p3" "m1" 1000 71).1 = ⟨true, none⟩ := by
  have h := check_limits_request_window limits_fixture st_two_requests "p3" "m1" 1000 30 71 2 0
      ⟨10, 1⟩ [⟨20, 1⟩] (by decide) (by decide) (by decide) (by decide) (by decide) (by decide)
      (by decide) (by decide) (Or.inl (by decide))
  refine ⟨?_, h.2.2⟩
  rw [h.1]
  decide

/-- C7: with a positive token limit `U`, a check whose live token weights
plus the estimate strictly exceed `U` is denied with a retry-after based on
the oldest token-window entry, even when the request count is under its own
limit. -/
theorem check_limits_token_window
    (cfg : LimitsConfig) (st : RLState) (p m : String) (est now R U : ℤ)
    (h1 : (get_model_limits cfg p m).1 = R)
    (h2 : (get_model_limits cfg p m).2 = U)
    (hU : 0 < U)
    (hreq : R ≤ 0 ∨ ((cleanup_old_entries now (st.request_history m)).length : ℤ) < R)
    (hsum : U < sum_weights (cleanup_old_entries now (st.token_history m)) + est) :
    (check_limits cfg st p m est now).1 =
      ⟨false, some (max 0 ((((cleanup_old_entries now (st.token_history m)).head?).map
        Entry.time).getD now + window_size - now))⟩ := by
  simp only [check_limits, h1, h2]
  rw [if_neg (by omega)]
  by_cases hR0 : 0 < R
  · rw [if_pos hR0]
    have hlen : ¬ (R ≤ ((cleanup_old_entries now (st.request_history m)).length : ℤ)) := by
      rcases hreq with h | h <;> omega
    rw [if_neg hlen]
    simp only [check_tpm, if_pos hU]
    rw [if_pos hsum]
  · rw [if_neg hR0]
    simp only [check_tpm, if_pos hU]
    rw [if_pos hsum]

/-- Witness for C7: token limit 100, 80 live token weights, estimate 50:
denied at time 20 with retry-after 45, although 1 request is under the
request limit 10. -/
theorem check_limits_token_window_witness :
    (check_limits limits_fixture st_tokens "p4" "m1" 50 20).1 = ⟨false, some 45⟩ := by
  have h := check_limits_token_window limits_fixture st_tokens "p4" "m1" 50 20 10 100
      (by decide) (by decide) (by decide) (Or.inr (by decide)) (by decide)
  rw [h]
  decide

/-- C4, counterexample: usage histories are keyed by model id alone, so a
request recorded under provider `"pX"` flips the admission decision and the
usage snapshot of the same model `"m1"` routed through provider `"p2"`. -/
theorem rate_limiter_shared_history_counterexample :
    (check_limits limits_fixture RLState.empty "p2" "m1" 1000 100).1.allowed = true
    ∧ (check_limits limits_fixture (record_request RLState.empty "pX" "m1" 50 100)
        "p2" "m1" 1000 100).1.allowed = false
    ∧ (get_current_usage limits_fixture (record_request RLState.empty "pX" "m1" 50 100)
        "p2" "m1" 100).current_requests = 1 := by
  decide

/-- C4, amended: both windows are keyed by the model id alone —
`record_request` does not depend on the provider at all, and `check_limits`
depends on it only through the limit lookup. -/
theorem rate_limiter_keyed_by_model (cfg : LimitsConfig) (st : RLState)
    (p q m : String) (tc est now : ℤ) :
    record_request st p m tc now = record_request st q m tc now
    ∧ (get_model_limits cfg p m = get_model_limits cfg q m →
        check_limits cfg st p m est now = check_limits cfg st q m est now) := by
  refine ⟨rfl, fun h => ?_⟩
  simp only [check_limits, h]

/-- Witness for C4's amended statement, at two providers sharing the
default limits. -/
theorem rate_limiter_keyed_by_model_witness :
    record_request RLState.empty "pX" "m1" 5 0 = record_request RLState.empty "pY" "m1" 5 0
    ∧ check_limits limits_fixture RLState.empty "pX" "m1" 7 0 =
        check_limits limits_fixture RLState.empty "pY" "m1" 7 0 := by
  have h := rate_limiter_keyed_by_model limits_fixture RLState.empty "pX" "pY" "m1" 5 7 0
  exact ⟨h.1, h.2 (by decide)⟩

/-- C10: with `USE_PAID_MODELS` unset or case-insensitively `"true"`, the
paid-skip check returns false for every (provider, model); any other value
makes it skip a (provider, model) flagged paid, whether by a provider route
or by the legacy models config. -/
theorem should_skip_paid_provider_spec (env : Option String) (cfg : RouterConfig)
    (p m : String) :
    ((env = none ∨ ∃ v, env = some v ∧ py_lower v = "true") →
      should_skip_paid_provider env cfg p m = false)
    ∧ (∀ v, env = some v → py_lower v ≠ "true" →
        ∀ r ∈ cfg.provider_routes, r.id = m → r.provider = some p → r.is_paid = true →
          should_skip_paid_provider env cfg p m = true)
    ∧ (∀ v, env = some v → py_lower v ≠ "true" →
        ∀ mc, cfg.models m = some mc → mc.is_paid = true →
          should_skip_paid_provider env cfg p m = true) := by
  refine ⟨?_, ?_, ?_⟩
  · rintro (rfl | ⟨v, rfl, hv⟩)
    · have h : use_paid_models none = true := by decide
      simp [should_skip_paid_provider, h]
    · have h : use_paid_models (some v) = true := by
        simp [use_paid_models, hv]
      simp [should_skip_paid_provider, h]
  · rintro v rfl hv r hr hid hprov hpaid
    have henv : use_paid_models (some v) = false := by
      simp only [use_paid_models, Option.getD_some]
      exact beq_eq_false_iff_ne.mpr hv
    by_cases hm : (cfg.models m).elim false ModelCfg.is_paid = true
    · simp [should_skip_paid_provider, henv, hm]
    · have hany : (cfg.provider_routes.any fun r =>
          r.id == m && r.provider == some p && r.is_paid) = true :=
        List.any_eq_true.mpr ⟨r, hr, by simp [hid, hprov, hpaid]⟩
      simp [should_skip_paid_provider, henv, hm, hany]
  · rintro v rfl hv mc hmc hpaid
    have henv : use_paid_models (some v) = false := by
      simp only [use_paid_models, Option.getD_some]
      exact beq_eq_false_iff_ne.mpr hv
    have hm : (cfg.models m).elim false ModelCfg.is_paid = true := by
      rw [hmc]
      exact hpaid
    simp [should_skip_paid_provider, henv, hm]

/-- C2, counterexample: an activity entry whose action begins with
`"processed by communications"` but whose agent differs does not stop the
pipeline from invoking the Router for `"communications"` again — the code
keys idempotency on the agent field plus a bare `"processed by"` action,
not on the action text carrying the role. -/
theorem pipeline_idempotency_counterexample :
    (⟨0, "processed by communications", "someone_else", none⟩ : ActivityEntry)
        ∈ task_foreign_entry.activity
    ∧ py_startswith "processed by communications"
        "processed by communications" = true
    ∧ (run_pipeline router_ok 5 [("communications", "i1")] task_foreign_entry).invoked
        = ["communications"] :=
  ⟨by decide, by decide, rfl⟩

/-- C2, amended: the idempotency signal the code uses is an activity entry
whose agent equals the role and whose action begins with `"processed by"`
(with any continuation); a role with such an entry is not handed to the
Router again, and the invoked roles form an ordered sublist of the
configured stage list. -/
theorem pipeline_idempotency
    (router : String → String → Option String) (now : ℤ)
    (pipeline : List (String × String)) (t : Task) (R : String)
    (h : ∃ a ∈ t.activity, a.agent = R ∧ py_startswith "processed by" a.action = true) :
    R ∉ (run_pipeline router now pipeline t).invoked
    ∧ List.Sublist (run_pipeline router now pipeline t).invoked (pipeline.map Prod.fst) :=
  ⟨run_pipeline_not_invoked router now R pipeline t h,
   run_pipeline_invoked_sublist router now pipeline t⟩

/-- Witness for C2's amended statement: a task already processed by
`"communications"` runs a two-stage pipeline without re-invoking that
role. -/
theorem pipeline_idempotency_witness :
    "communications" ∉ (run_pipeline router_ok 5
        [("communications", "i1"), ("senior_dev", "i2")] task_done_comms).invoked
    ∧ List.Sublist (run_pipeline router_ok 5
        [("communications", "i1"), ("senior_dev", "i2")] task_done_comms).invoked
        ["communications", "senior_dev"] := by
  have h := pipeline_idempotency router_ok 5
      [("communications", "i1"), ("senior_dev", "i2")] task_done_comms "communications"
      ⟨⟨0, "processed by communications", "communications", none⟩, by decide, rfl, by decide⟩
  exact ⟨h.1, h.2⟩

/-- C3, counterexample: when the Router fails for stage `"r1"`, the next
stage `"r2"` is still invoked in the same pass — the stage loop does not
stop on failure. -/
theorem stage_failure_counterexample :
    router_fail_r1 "r1" (task_prompt task_fresh "r1" "i1") = none
    ∧ (run_pipeline router_fail_r1 5 [("r1", "i1"), ("r2", "i2")] task_fresh).invoked
        = ["r1", "r2"] :=
  ⟨rfl, rfl⟩

/-- C3, amended: a stage whose Router outcome is non-success (`None` or an
empty string) appends no activity entry, persists nothing, and hands the
task on unchanged — the task stays eligible for the same stage on a later
pass — but the loop continues with the remaining stages in the same pass
instead of stopping. -/
theorem stage_failure_atomicity
    (router : String → String → Option String) (now : ℤ)
    (role instruction : String) (rest : List (String × String)) (t : Task)
    (hnotdone : stage_done t role = false)
    (hfail : router role (task_prompt t role instruction) = none
      ∨ router role (task_prompt t role instruction) = some "") :
    run_pipeline router now ((role, instruction) :: rest) t =
      ⟨(run_pipeline router now rest t).task,
       role :: (run_pipeline router now rest t).invoked,
       (run_pipeline router now rest t).writes⟩ := by
  have hs : route_to_agent router role t instruction now = ⟨none, t, false⟩ := by
    rcases hfail with h | h
    · simp [route_to_agent, h]
    · simp [route_to_agent, h]
  simp [run_pipeline, hnotdone, hs]

/-- Witness for C3's amended statement: role `"r1"` fails against
`router_fail_r1`, the pass continues on the unchanged task with `"r1"`
prepended to the invocation trace. -/
theorem stage_failure_atomicity_witness :
    run_pipeline router_fail_r1 5 [("r1", "i1"), ("r2", "i2")] task_fresh =
      ⟨(run_pipeline router_fail_r1 5 [("r2", "i2")] task_fresh).task,
       "r1" :: (run_pipeline router_fail_r1 5 [("r2", "i2")] task_fresh).invoked,
       (run_pipeline router_fail_r1 5 [("r2", "i2")] task_fresh).writes⟩ :=
  stage_failure_atomicity router_fail_r1 5 "r1" "i1" [("r2", "i2")] task_fresh rfl (Or.inl rfl)

/-- C5: providers are consulted strictly in chain order (the invoked
providers form an ordered sublist of the chain), an unavailable provider is
skipped with its `complete` never invoked (the loop continues exactly as if
the provider were absent), and the first admitted provider that completes
successfully ends the loop: its text is returned, it alone is recorded as
called from that point, and no later provider is consulted. -/
theorem router_fallback_order (env : Option String) (rcfg : RouterConfig)
    (lcfg : LimitsConfig) (factory : String → Option Provider)
    (model prompt : String) :
    (∀ chain st now, List.Sublist
        (complete_loop env rcfg lcfg factory model prompt chain st now).called chain)
    ∧ (∀ p prov rest st now, factory p = some prov → prov.is_available = false →
        complete_loop env rcfg lcfg factory model prompt (p :: rest) st now =
          complete_loop env rcfg lcfg factory model prompt rest st now)
    ∧ (∀ p prov rest st now st' now' text,
        should_skip_paid_provider env rcfg p model = false →
        factory p = some prov → prov.is_available = true →
        rate_gate lcfg p model st now = Sum.inl (st', now') →
        prov.complete_fn prompt = some text →
        complete_loop env rcfg lcfg factory model prompt (p :: rest) st now =
          ⟨some text, [p],
           record_request st' p model (estimate_tokens prompt text) now', now'⟩) := by
  refine ⟨?_, ?_, ?_⟩
  · intro chain
    induction chain with
    | nil =>
      intro st now
      simp [complete_loop]
    | cons p rest ih =>
      intro st now
      simp only [complete_loop]
      by_cases hskip : should_skip_paid_provider env rcfg p model = true
      · simp only [hskip, if_true]
        exact (ih _ _).cons p
      · simp only [hskip, if_false]
        rcases hf : factory p with _ | prov
        · exact (ih _ _).cons p
        · by_cases hav : prov.is_available = false
          · simp only [hav, if_true]
            exact (ih _ _).cons p
          · simp only [hav, if_false]
            rcases hg : rate_gate lcfg p model st now with ⟨st', now'⟩ | ⟨st', now'⟩
            · rcases hc : prov.complete_fn prompt with _ | text
              · simp only [hc]
                exact (ih _ _).cons₂ p
              · simp only [hc]
                exact (List.nil_sublist rest).cons₂ p
            · exact (ih _ _).cons p
  · intro p prov rest st now hf hav
    by_cases hskip : should_skip_paid_provider env rcfg p model = true
    · simp [complete_loop, hskip]
    · simp [complete_loop, hskip, hf, hav]
  · intro p prov rest st now st' now' text hskip hf hav hg hc
    simp [complete_loop, hskip, hf, hav, hg, hc]

/-- Witness for C5: chain `["pa", "pb"]` with `pa` unavailable and `pb`
answering `"ok"`: the call returns `"ok"`, only `pb`'s `complete` is
invoked, and `pa` never is. -/
theorem router_fallback_order_witness :
    complete_loop none free_cfg limits_fixture provider_factory "m1" "x"
        ["pa", "pb"] RLState.empty 0 =
      ⟨some "ok", ["pb"],
       record_request (check_limits limits_fixture RLState.empty "pb" "m1" 1000 0).2
         "pb" "m1" (estimate_tokens "x" "ok") 0, 0⟩
    ∧ "pa" ∉ ["pb"] := by
  constructor
  · rw [(router_fallback_order none free_cfg limits_fixture provider_factory "m1" "x").2.1
      "pa" provider_pa ["pb"] RLState.empty 0 rfl rfl]
    exact (router_fallback_order none free_cfg limits_fixture provider_factory "m1" "x").2.2
      "pb" provider_pb [] RLState.empty 0
      ((check_limits limits_fixture RLState.empty "pb" "m1" 1000 0).2) 0 "ok"
      rfl rfl rfl rfl rfl
  · decide

/-- C8, counterexample: an exhausted chain returns the bare `None` sentinel,
the very value also returned when the role has no route at all — there is
no typed `AllProvidersExhausted` failure value anywhere in the result. -/
theorem router_exhaustion_untyped_counterexample :
    (router_complete none free_cfg limits_fixture provider_factory
        (some ⟨"m1", ["pa", "pc"]⟩) "x" RLState.empty 0).result = none
    ∧ (router_complete none free_cfg limits_fixture provider_factory
        none "x" RLState.empty 0).result = none :=
  ⟨rfl, rfl⟩

/-- C8, amended: when every provider in the chain is skipped or fails —
paid-disabled, unregistered in the factory, unavailable, rate-denied at
every state, or invoked with a failing backend call — `complete` returns
`None` as an ordinary value for this expected condition (nothing is
raised). -/
theorem router_exhaustion_returns_none (env : Option String) (rcfg : RouterConfig)
    (lcfg : LimitsConfig) (factory : String → Option Provider)
    (model prompt : String) :
    ∀ chain,
      (∀ p ∈ chain,
        should_skip_paid_provider env rcfg p model = true
        ∨ ∀ prov, factory p = some prov →
            prov.is_available = false
            ∨ prov.complete_fn prompt = none
            ∨ ∀ st now, ∃ q, rate_gate lcfg p model st now = Sum.inr q) →
      ∀ st now,
        (complete_loop env rcfg lcfg factory model prompt chain st now).result = none := by
  intro chain
  induction chain with
  | nil =>
    intro _ st now
    rfl
  | cons p rest ih =>
    intro h st now
    have hrest := ih fun q hq => h q (List.mem_cons_of_mem p hq)
    rcases h p (List.mem_cons_self p rest) with hskip | hp
    · simpa [complete_loop, hskip] using hrest st now
    · by_cases hskip : should_skip_paid_provider env rcfg p model = true
      · simpa [complete_loop, hskip] using hrest st now
      · rcases hf : factory p with _ | prov
        · simpa [complete_loop, hskip, hf] using hrest st now
        · rcases hp prov hf with hav | hc | hg
          · simpa [complete_loop, hskip, hf, hav] using hrest st now
          · by_cases hav : prov.is_available = false
            · simpa [complete_loop, hskip, hf, hav] using hrest st now
            · rcases hgate : rate_gate lcfg p model st now with ⟨st', now'⟩ | ⟨st', now'⟩
              · simpa [complete_loop, hskip, hf, hav, hgate, hc] using hrest st' now'
              · simpa [complete_loop, hskip, hf, hav, hgate] using hrest st' now'
          · by_cases hav : prov.is_available = false
            · simpa [complete_loop, hskip, hf, hav] using hrest st now
            · obtain ⟨q, hgate⟩ := hg st now
              obtain ⟨st', now'⟩ := q
              simpa [complete_loop, hskip, hf, hav, hgate] using hrest st' now'

/-- Witness for C8's amended statement: a chain mixing an unavailable
provider with an available one whose backend call raises still yields
`none`. -/
theorem router_exhaustion_returns_none_witness :
    (complete_loop none free_cfg limits_fixture provider_factory "m1" "x"
        ["pa", "pd"] RLState.empty 0).result = none := by
  refine router_exhaustion_returns_none none free_cfg limits_fixture provider_factory
    "m1" "x" ["pa", "pd"] ?_ RLState.empty 0
  intro p hp
  rcases List.mem_cons.mp hp with h1 | h1
  · subst h1
    refine Or.inr fun prov hf => ?_
    rw [show provider_factory "pa" = some provider_pa from rfl] at hf
    cases hf
    exact Or.inl rfl
  · rcases List.mem_cons.mp h1 with h2 | h2
    · subst h2
      refine Or.inr fun prov hf => ?_
      rw [show provider_factory "pd" = some provider_pd from rfl] at hf
      cases hf
      exact Or.inr (Or.inl rfl)
    · cases h2

/-- Witness for C10: unset and `"TRUE"` allow the paid route; `"0"`
disables it. -/
theorem should_skip_paid_provider_witness :
    should_skip_paid_provider none paid_cfg "prov1" "model1" = false
    ∧ should_skip_paid_provider (some "TRUE") paid_cfg "prov1" "model1" = false
    ∧ should_skip_paid_provider (some "0") paid_cfg "prov1" "model1" = true := by
  refine ⟨?_, ?_, ?_⟩
  · exact (should_skip_paid_provider_spec none paid_cfg "prov1" "model1").1 (Or.inl rfl)
  · exact (should_skip_paid_provider_spec (some "TRUE") paid_cfg "prov1" "model1").1
      (Or.inr ⟨"TRUE", rfl, by decide⟩)
  · exact (should_skip_paid_provider_spec (some "0") paid_cfg "prov1" "model1").2.1
      "0" rfl (by decide) paid_route (by decide) rfl rfl rfl

end Nexus
